import Mathlib

/-!
Shallow embedding of `src/python/tink/jwt/_jwt_validator.py`.

Timestamps (`datetime.datetime`) are modelled as an integer instant in
seconds together with a flag recording whether the value carries tzinfo;
durations (`datetime.timedelta`) are modelled as integer seconds.
Python truthiness tests on optional strings and optional timedeltas are
reproduced exactly (empty string and zero duration are falsy; `None` is
falsy; a `datetime` object is always truthy).
-/

/-- Modelled from the spec: a timestamp that must carry explicit
timezone/offset information to be usable for validation.  `instant` is the
absolute point in time in seconds; `tzinfo` records whether the Python
`datetime` object has a (truthy) `tzinfo` attached. -/
structure Datetime where
  instant : Int
  tzinfo : Bool
deriving DecidableEq, Repr

/-- The `ValueError`s raised by `JwtValidator.__init__`, one constructor per
raise site, in source order. -/
inductive ValueError where
  | typeHeaderConflict
  | issuerConflict
  | audienceConflict
  | clockSkewTooLarge
  | fixedNowWithoutTzinfo
deriving DecidableEq, Repr

/-- The message string of each constructor, as in the source. -/
def ValueError.message : ValueError → String
  | .typeHeaderConflict =>
      "expected_type_header and ignore_type_header cannot be used together"
  | .issuerConflict =>
      "expected_issuer and ignore_issuer cannot be used together"
  | .audienceConflict =>
      "expected_audience and ignore_audiences cannot be used together"
  | .clockSkewTooLarge => "clock skew too large, max is 10 minutes"
  | .fixedNowWithoutTzinfo => "fixed_now without tzinfo"

/-- The `JwtInvalidError`s raised by `validate`, one constructor per raise
site, in source order, carrying the data interpolated into the message. -/
inductive JwtInvalidError where
  | missingExpiration
  | expired (exp : Int)
  | notYetValid (nbf : Int)
  | missingIssuedAt
  | issuedAtInFuture (iat : Int)
  | missingTypeHeader (expected : String)
  | wrongTypeHeader (expected got : String)
  | typeHeaderSetButValidatorNot
  | missingIssuer (expected : String)
  | wrongIssuer (expected got : String)
  | issuerSetButValidatorNot
  | missingAudience (expected : String)
  | audienceSetButValidatorNot
deriving DecidableEq, Repr

/-- The message string of each raise site, as in the source (with the
timestamp rendered as its integer instant). -/
def JwtInvalidError.message : JwtInvalidError → String
  | .missingExpiration => "token is missing an expiration"
  | .expired e => "token has expired since " ++ toString e
  | .notYetValid nbf => "token cannot be used before " ++ toString nbf
  | .missingIssuedAt => "token is missing iat claim"
  | .issuedAtInFuture iat =>
      "token has a invalid iat claim in the future: " ++ toString iat
  | .missingTypeHeader e => "invalid JWT; missing expected type header " ++ e ++ "."
  | .wrongTypeHeader e g =>
      "invalid JWT; expected type header " ++ e ++ ", but got " ++ g
  | .typeHeaderSetButValidatorNot =>
      "invalid JWT; token has type_header set, but validator not."
  | .missingIssuer e => "invalid JWT; missing expected issuer " ++ e ++ "."
  | .wrongIssuer e g => "invalid JWT; expected issuer " ++ e ++ ", but got " ++ g
  | .issuerSetButValidatorNot =>
      "invalid JWT; token has issuer set, but validator not."
  | .missingAudience e => "invalid JWT; missing expected audience " ++ e ++ "."
  | .audienceSetButValidatorNot =>
      "invalid JWT; token has audience set, but validator not."

/-- `_MAX_CLOCK_SKEW = datetime.timedelta(minutes=10)`, in seconds. -/
def _MAX_CLOCK_SKEW : Int := 600

/-- Python truthiness of an `Optional[str]`: `None` and the empty string are
falsy. -/
def pyStrOptTruthy : Option String → Bool
  | none => false
  | some s => !s.isEmpty

/-- Python truthiness of an `Optional[datetime.timedelta]`: `None` and the
zero duration are falsy. -/
def pyTimedeltaOptTruthy : Option Int → Bool
  | none => false
  | some d => d != 0

/-- The `JwtValidator` object: the fields stored by `__init__`. -/
structure JwtValidator where
  _expected_type_header : Option String
  _expected_issuer : Option String
  _expected_audience : Option String
  _ignore_type_header : Bool
  _ignore_issuer : Bool
  _ignore_audiences : Bool
  _allow_missing_expiration : Bool
  _expect_issued_in_the_past : Bool
  _clock_skew : Int
  _fixed_now : Option Datetime
deriving DecidableEq, Repr

/-- `JwtValidator.__init__`: performs the constructor checks in source order
and either raises a `ValueError` or returns the constructed object.
A Python `datetime` object is always truthy, so the `fixed_now and ...`
test reduces to an is-present check. -/
def JwtValidator.init
    (expected_type_header expected_issuer expected_audience : Option String)
    (ignore_type_header ignore_issuer ignore_audiences
      allow_missing_expiration expect_issued_in_the_past : Bool)
    (clock_skew : Option Int) (fixed_now : Option Datetime) :
    Except ValueError JwtValidator :=
  if pyStrOptTruthy expected_type_header && ignore_type_header then
    .error .typeHeaderConflict
  else if pyStrOptTruthy expected_issuer && ignore_issuer then
    .error .issuerConflict
  else if pyStrOptTruthy expected_audience && ignore_audiences then
    .error .audienceConflict
  else if pyTimedeltaOptTruthy clock_skew && clock_skew.getD 0 > _MAX_CLOCK_SKEW then
    .error .clockSkewTooLarge
  else if fixed_now.isSome && !((fixed_now.getD ⟨0, true⟩).tzinfo) then
    .error .fixedNowWithoutTzinfo
  else
    .ok { _expected_type_header := expected_type_header
          _expected_issuer := expected_issuer
          _expected_audience := expected_audience
          _ignore_type_header := ignore_type_header
          _ignore_issuer := ignore_issuer
          _ignore_audiences := ignore_audiences
          _allow_missing_expiration := allow_missing_expiration
          _expect_issued_in_the_past := expect_issued_in_the_past
          _clock_skew :=
            if pyTimedeltaOptTruthy clock_skew then clock_skew.getD 0 else 0
          _fixed_now := fixed_now }

/-- `new_validator`: the keyword-argument wrapper with the source defaults. -/
def new_validator
    (expected_type_header : Option String := none)
    (expected_issuer : Option String := none)
    (expected_audience : Option String := none)
    (ignore_type_header : Bool := false)
    (ignore_issuer : Bool := false)
    (ignore_audiences : Bool := false)
    (allow_missing_expiration : Bool := false)
    (expect_issued_in_the_past : Bool := false)
    (clock_skew : Option Int := none)
    (fixed_now : Option Datetime := none) :
    Except ValueError JwtValidator :=
  JwtValidator.init expected_type_header expected_issuer expected_audience
    ignore_type_header ignore_issuer ignore_audiences
    allow_missing_expiration expect_issued_in_the_past clock_skew fixed_now

def JwtValidator.has_expected_type_header (v : JwtValidator) : Bool :=
  v._expected_type_header.isSome

def JwtValidator.expected_type_header (v : JwtValidator) : Option String :=
  v._expected_type_header

def JwtValidator.has_expected_issuer (v : JwtValidator) : Bool :=
  v._expected_issuer.isSome

def JwtValidator.expected_issuer (v : JwtValidator) : Option String :=
  v._expected_issuer

def JwtValidator.has_expected_audience (v : JwtValidator) : Bool :=
  v._expected_audience.isSome

def JwtValidator.expected_audience (v : JwtValidator) : Option String :=
  v._expected_audience

def JwtValidator.ignore_type_header (v : JwtValidator) : Bool :=
  v._ignore_type_header

def JwtValidator.ignore_issuer (v : JwtValidator) : Bool :=
  v._ignore_issuer

def JwtValidator.ignore_audiences (v : JwtValidator) : Bool :=
  v._ignore_audiences

def JwtValidator.allow_missing_expiration (v : JwtValidator) : Bool :=
  v._allow_missing_expiration

def JwtValidator.expect_issued_in_the_past (v : JwtValidator) : Bool :=
  v._expect_issued_in_the_past

def JwtValidator.clock_skew (v : JwtValidator) : Int :=
  v._clock_skew

def JwtValidator.has_fixed_now (v : JwtValidator) : Bool :=
  v._fixed_now.isSome

def JwtValidator.fixed_now (v : JwtValidator) : Option Datetime :=
  v._fixed_now

/-- Modelled from the spec: the decoded-token claims view (`RawJwt` from
`tink.jwt._raw_jwt`, which is not under `src/`).  The spec describes it as a
read-only view exposing presence and value accessors for expiration,
not-before, issued-at (timestamps), type header, issuer (strings) and
audience (a set of strings); an absent claim is `none`.  Timestamps are
integer instants in seconds, the audience set is a list of strings with
membership as the only operation used. -/
structure RawJwt where
  expiration : Option Int
  not_before : Option Int
  issued_at : Option Int
  type_header : Option String
  issuer : Option String
  audiences : Option (List String)
deriving DecidableEq, Repr

def RawJwt.has_expiration (t : RawJwt) : Bool := t.expiration.isSome

def RawJwt.has_not_before (t : RawJwt) : Bool := t.not_before.isSome

def RawJwt.has_issued_at (t : RawJwt) : Bool := t.issued_at.isSome

def RawJwt.has_type_header (t : RawJwt) : Bool := t.type_header.isSome

def RawJwt.has_issuer (t : RawJwt) : Bool := t.issuer.isSome

def RawJwt.has_audiences (t : RawJwt) : Bool := t.audiences.isSome

/-- Step 1 of `validate`, the time base: `fixed_now` if set, else the
ambient clock reading (passed in explicitly, since the embedding is pure). -/
def effectiveNow (validator : JwtValidator) (ambient_now : Int) : Int :=
  if validator.has_fixed_now then (validator._fixed_now.getD ⟨0, true⟩).instant
  else ambient_now

/-- The body of `validate` after the time base has been fixed: the chain of
checks from the source, in source order, first raise wins.  Each value
accessor of `RawJwt` raises in Python when the claim is absent; every use
below is guarded by the corresponding presence check, so the `getD`
defaults are never observed. -/
def validateAt (validator : JwtValidator) (raw_jwt : RawJwt) (now : Int) :
    Except JwtInvalidError Unit :=
  if ¬raw_jwt.has_expiration ∧ ¬validator.allow_missing_expiration then
    .error .missingExpiration
  else if raw_jwt.has_expiration ∧
      raw_jwt.expiration.getD 0 ≤ now - validator.clock_skew then
    .error (.expired (raw_jwt.expiration.getD 0))
  else if raw_jwt.has_not_before ∧
      raw_jwt.not_before.getD 0 > now + validator.clock_skew then
    .error (.notYetValid (raw_jwt.not_before.getD 0))
  else if validator.expect_issued_in_the_past ∧ ¬raw_jwt.has_issued_at then
    .error .missingIssuedAt
  else if validator.expect_issued_in_the_past ∧
      raw_jwt.issued_at.getD 0 > now + validator.clock_skew then
    .error (.issuedAtInFuture (raw_jwt.issued_at.getD 0))
  else if validator.has_expected_type_header ∧ ¬raw_jwt.has_type_header then
    .error (.missingTypeHeader (validator._expected_type_header.getD ""))
  else if validator.has_expected_type_header ∧
      validator._expected_type_header.getD "" ≠ raw_jwt.type_header.getD "" then
    .error (.wrongTypeHeader (validator._expected_type_header.getD "")
      (raw_jwt.type_header.getD ""))
  else if ¬validator.has_expected_type_header ∧ raw_jwt.has_type_header ∧
      ¬validator.ignore_type_header then
    .error .typeHeaderSetButValidatorNot
  else if validator.has_expected_issuer ∧ ¬raw_jwt.has_issuer then
    .error (.missingIssuer (validator._expected_issuer.getD ""))
  else if validator.has_expected_issuer ∧
      validator._expected_issuer.getD "" ≠ raw_jwt.issuer.getD "" then
    .error (.wrongIssuer (validator._expected_issuer.getD "")
      (raw_jwt.issuer.getD ""))
  else if ¬validator.has_expected_issuer ∧ raw_jwt.has_issuer ∧
      ¬validator.ignore_issuer then
    .error .issuerSetButValidatorNot
  else if validator.has_expected_audience ∧
      (¬raw_jwt.has_audiences ∨
        validator._expected_audience.getD "" ∉ raw_jwt.audiences.getD []) then
    .error (.missingAudience (validator._expected_audience.getD ""))
  else if ¬validator.has_expected_audience ∧ raw_jwt.has_audiences ∧
      ¬validator.ignore_audiences then
    .error .audienceSetButValidatorNot
  else
    .ok ()

/-- `validate(validator, raw_jwt)`: fixes the time base and runs the checks.
`ambient_now` is the ambient UTC clock reading, used only when the validator
has no `fixed_now`. -/
def validate (validator : JwtValidator) (raw_jwt : RawJwt) (ambient_now : Int) :
    Except JwtInvalidError Unit :=
  validateAt validator raw_jwt (effectiveNow validator ambient_now)

/-! ## Spec-side formulation: the ordered list of checks (for the
first-violation-wins refinement claim).  Each `specCheck*` states one rule
of the step list in the spec; `specFirstViolation` returns the first
triggered rule. -/

/-- Spec rule 2a: missing expiration. -/
def specCheckMissingExpiration (v : JwtValidator) (t : RawJwt) :
    Option JwtInvalidError :=
  if ¬t.has_expiration ∧ ¬v.allow_missing_expiration then
    some .missingExpiration
  else none

/-- Spec rule 2b: expired (`expiration ≤ now − clock_skew`). -/
def specCheckExpired (v : JwtValidator) (t : RawJwt) (now : Int) :
    Option JwtInvalidError :=
  if t.has_expiration ∧ t.expiration.getD 0 ≤ now - v.clock_skew then
    some (.expired (t.expiration.getD 0))
  else none

/-- Spec rule 3: not-before (`not_before > now + clock_skew`). -/
def specCheckNotBefore (v : JwtValidator) (t : RawJwt) (now : Int) :
    Option JwtInvalidError :=
  if t.has_not_before ∧ t.not_before.getD 0 > now + v.clock_skew then
    some (.notYetValid (t.not_before.getD 0))
  else none

/-- Spec rule 4: issued-in-past (missing iat, then future iat). -/
def specCheckIssuedInPast (v : JwtValidator) (t : RawJwt) (now : Int) :
    Option JwtInvalidError :=
  if v.expect_issued_in_the_past then
    if ¬t.has_issued_at then some .missingIssuedAt
    else if t.issued_at.getD 0 > now + v.clock_skew then
      some (.issuedAtInFuture (t.issued_at.getD 0))
    else none
  else none

/-- Spec rule 5: type header (exact-match expectation, or
reject-if-present-and-not-ignored). -/
def specCheckTypeHeader (v : JwtValidator) (t : RawJwt) :
    Option JwtInvalidError :=
  if v.has_expected_type_header then
    if ¬t.has_type_header then
      some (.missingTypeHeader (v._expected_type_header.getD ""))
    else if v._expected_type_header.getD "" ≠ t.type_header.getD "" then
      some (.wrongTypeHeader (v._expected_type_header.getD "")
        (t.type_header.getD ""))
    else none
  else if t.has_type_header ∧ ¬v.ignore_type_header then
    some .typeHeaderSetButValidatorNot
  else none

/-- Spec rule 6: issuer, symmetric to type header. -/
def specCheckIssuer (v : JwtValidator) (t : RawJwt) :
    Option JwtInvalidError :=
  if v.has_expected_issuer then
    if ¬t.has_issuer then
      some (.missingIssuer (v._expected_issuer.getD ""))
    else if v._expected_issuer.getD "" ≠ t.issuer.getD "" then
      some (.wrongIssuer (v._expected_issuer.getD "") (t.issuer.getD ""))
    else none
  else if t.has_issuer ∧ ¬v.ignore_issuer then
    some .issuerSetButValidatorNot
  else none

/-- Spec rule 7: audience (membership, or
reject-if-present-and-not-ignored). -/
def specCheckAudience (v : JwtValidator) (t : RawJwt) :
    Option JwtInvalidError :=
  if v.has_expected_audience then
    if ¬t.has_audiences ∨ v._expected_audience.getD "" ∉ t.audiences.getD [] then
      some (.missingAudience (v._expected_audience.getD ""))
    else none
  else if t.has_audiences ∧ ¬v.ignore_audiences then
    some .audienceSetButValidatorNot
  else none

/-- The checks of the spec step list, in the order the spec fixes:
missing-expiration, expired, not-before, issued-in-past, type header,
issuer, audience (the time base, step 1, is the `now` argument). -/
def specOrderedChecks (v : JwtValidator) (t : RawJwt) (now : Int) :
    List (Option JwtInvalidError) :=
  [specCheckMissingExpiration v t,
   specCheckExpired v t now,
   specCheckNotBefore v t now,
   specCheckIssuedInPast v t now,
   specCheckTypeHeader v t,
   specCheckIssuer v t,
   specCheckAudience v t]

/-- The first triggered rule of an ordered check list, if any. -/
def specFirstViolation : List (Option JwtInvalidError) → Option JwtInvalidError
  | [] => none
  | some e :: _ => some e
  | none :: rest => specFirstViolation rest

/-- Helper: `validateAt` equals the first-violation-wins reading of the
ordered spec check list. -/
theorem validateAt_eq_firstViolation (v : JwtValidator) (t : RawJwt) (now : Int) :
    validateAt v t now =
      (specFirstViolation (specOrderedChecks v t now)).elim (Except.ok ())
        Except.error := by
  by_cases h1 : ¬t.has_expiration ∧ ¬v.allow_missing_expiration
  · have c1 : specCheckMissingExpiration v t = some .missingExpiration :=
      if_pos h1
    simp only [validateAt, specOrderedChecks, c1, specFirstViolation,
      Option.elim, if_pos h1]
  have c1 : specCheckMissingExpiration v t = none := if_neg h1
  by_cases h2 : t.has_expiration ∧ t.expiration.getD 0 ≤ now - v.clock_skew
  · have c2 : specCheckExpired v t now = some (.expired (t.expiration.getD 0)) :=
      if_pos h2
    simp only [validateAt, specOrderedChecks, c1, c2, specFirstViolation,
      Option.elim, if_neg h1, if_pos h2]
  have c2 : specCheckExpired v t now = none := if_neg h2
  by_cases h3 : t.has_not_before ∧ t.not_before.getD 0 > now + v.clock_skew
  · have c3 : specCheckNotBefore v t now =
        some (.notYetValid (t.not_before.getD 0)) := if_pos h3
    simp only [validateAt, specOrderedChecks, c1, c2, c3, specFirstViolation,
      Option.elim, if_neg h1, if_neg h2, if_pos h3]
  have c3 : specCheckNotBefore v t now = none := if_neg h3
  by_cases h4 : v.expect_issued_in_the_past ∧ ¬t.has_issued_at
  · have c4 : specCheckIssuedInPast v t now = some .missingIssuedAt := by
      unfold specCheckIssuedInPast
      rw [if_pos h4.1, if_pos h4.2]
    simp only [validateAt, specOrderedChecks, c1, c2, c3, c4,
      specFirstViolation, Option.elim, if_neg h1, if_neg h2, if_neg h3,
      if_pos h4]
  by_cases h5 : v.expect_issued_in_the_past ∧
      t.issued_at.getD 0 > now + v.clock_skew
  · have c4 : specCheckIssuedInPast v t now =
        some (.issuedAtInFuture (t.issued_at.getD 0)) := by
      unfold specCheckIssuedInPast
      split_ifs <;> simp_all
    simp only [validateAt, specOrderedChecks, c1, c2, c3, c4,
      specFirstViolation, Option.elim, if_neg h1, if_neg h2, if_neg h3,
      if_neg h4, if_pos h5]
  have c4 : specCheckIssuedInPast v t now = none := by
    unfold specCheckIssuedInPast
    split_ifs <;> simp_all
  by_cases h6 : v.has_expected_type_header ∧ ¬t.has_type_header
  · have c5 : specCheckTypeHeader v t =
        some (.missingTypeHeader (v._expected_type_header.getD "")) := by
      unfold specCheckTypeHeader
      rw [if_pos h6.1, if_pos h6.2]
    simp only [validateAt, specOrderedChecks, c1, c2, c3, c4, c5,
      specFirstViolation, Option.elim, if_neg h1, if_neg h2, if_neg h3,
      if_neg h4, if_neg h5, if_pos h6]
  by_cases h7 : v.has_expected_type_header ∧
      v._expected_type_header.getD "" ≠ t.type_header.getD ""
  · have c5 : specCheckTypeHeader v t =
        some (.wrongTypeHeader (v._expected_type_header.getD "")
          (t.type_header.getD "")) := by
      unfold specCheckTypeHeader
      split_ifs <;> simp_all
    simp only [validateAt, specOrderedChecks, c1, c2, c3, c4, c5,
      specFirstViolation, Option.elim, if_neg h1, if_neg h2, if_neg h3,
      if_neg h4, if_neg h5, if_neg h6, if_pos h7]
  by_cases h8 : ¬v.has_expected_type_header ∧ t.has_type_header ∧
      ¬v.ignore_type_header
  · have c5 : specCheckTypeHeader v t = some .typeHeaderSetButValidatorNot := by
      unfold specCheckTypeHeader
      split_ifs <;> simp_all
    simp only [validateAt, specOrderedChecks, c1, c2, c3, c4, c5,
      specFirstViolation, Option.elim, if_neg h1, if_neg h2, if_neg h3,
      if_neg h4, if_neg h5, if_neg h6, if_neg h7, if_pos h8]
  have c5 : specCheckTypeHeader v t = none := by
    unfold specCheckTypeHeader
    split_ifs <;> simp_all
  by_cases h9 : v.has_expected_issuer ∧ ¬t.has_issuer
  · have c6 : specCheckIssuer v t =
        some (.missingIssuer (v._expected_issuer.getD "")) := by
      unfold specCheckIssuer
      rw [if_pos h9.1, if_pos h9.2]
    simp only [validateAt, specOrderedChecks, c1, c2, c3, c4, c5, c6,
      specFirstViolation, Option.elim, if_neg h1, if_neg h2, if_neg h3,
      if_neg h4, if_neg h5, if_neg h6, if_neg h7, if_neg h8, if_pos h9]
  by_cases h10 : v.has_expected_issuer ∧
      v._expected_issuer.getD "" ≠ t.issuer.getD ""
  · have c6 : specCheckIssuer v t =
        some (.wrongIssuer (v._expected_issuer.getD "") (t.issuer.getD "")) := by
      unfold specCheckIssuer
      split_ifs <;> simp_all
    simp only [validateAt, specOrderedChecks, c1, c2, c3, c4, c5, c6,
      specFirstViolation, Option.elim, if_neg h1, if_neg h2, if_neg h3,
      if_neg h4, if_neg h5, if_neg h6, if_neg h7, if_neg h8, if_neg h9,
      if_pos h10]
  by_cases h11 : ¬v.has_expected_issuer ∧ t.has_issuer ∧ ¬v.ignore_issuer
  · have c6 : specCheckIssuer v t = some .issuerSetButValidatorNot := by
      unfold specCheckIssuer
      split_ifs <;> simp_all
    simp only [validateAt, specOrderedChecks, c1, c2, c3, c4, c5, c6,
      specFirstViolation, Option.elim, if_neg h1, if_neg h2, if_neg h3,
      if_neg h4, if_neg h5, if_neg h6, if_neg h7, if_neg h8, if_neg h9,
      if_neg h10, if_pos h11]
  have c6 : specCheckIssuer v t = none := by
    unfold specCheckIssuer
    split_ifs <;> simp_all
  by_cases h12 : v.has_expected_audience ∧
      (¬t.has_audiences ∨ v._expected_audience.getD "" ∉ t.audiences.getD [])
  · have c7 : specCheckAudience v t =
        some (.missingAudience (v._expected_audience.getD "")) := by
      unfold specCheckAudience
      rw [if_pos h12.1, if_pos h12.2]
    simp only [validateAt, specOrderedChecks, c1, c2, c3, c4, c5, c6, c7,
      specFirstViolation, Option.elim, if_neg h1, if_neg h2, if_neg h3,
      if_neg h4, if_neg h5, if_neg h6, if_neg h7, if_neg h8, if_neg h9,
      if_neg h10, if_neg h11, if_pos h12]
  by_cases h13 : ¬v.has_expected_audience ∧ t.has_audiences ∧
      ¬v.ignore_audiences
  · have c7 : specCheckAudience v t = some .audienceSetButValidatorNot := by
      unfold specCheckAudience
      split_ifs <;> simp_all
    simp only [validateAt, specOrderedChecks, c1, c2, c3, c4, c5, c6, c7,
      specFirstViolation, Option.elim, if_neg h1, if_neg h2, if_neg h3,
      if_neg h4, if_neg h5, if_neg h6, if_neg h7, if_neg h8, if_neg h9,
      if_neg h10, if_neg h11, if_neg h12, if_pos h13]
  have c7 : specCheckAudience v t = none := by
    unfold specCheckAudience
    split_ifs <;> simp_all
  simp only [validateAt, specOrderedChecks, c1, c2, c3, c4, c5, c6, c7,
    specFirstViolation, Option.elim, if_neg h1, if_neg h2, if_neg h3,
    if_neg h4, if_neg h5, if_neg h6, if_neg h7, if_neg h8, if_neg h9,
    if_neg h10, if_neg h11, if_neg h12, if_neg h13]

/-- C2: `validate` performs the checks in the fixed spec order and returns
the failure of the first violated rule (or success when none is violated):
it equals the first-violation-wins reading of the ordered spec check list,
evaluated at the step-1 time base.  A single reason is returned; there is no
multi-error accumulation. -/
theorem validate_first_violation_wins (v : JwtValidator) (t : RawJwt)
    (ambient_now : Int) :
    validate v t ambient_now =
      (specFirstViolation
          (specOrderedChecks v t (effectiveNow v ambient_now))).elim
        (Except.ok ()) Except.error :=
  validateAt_eq_firstViolation v t (effectiveNow v ambient_now)

/-! ## Characterizations of the individual checks, used to settle the
per-step claims through the first-violation decomposition. -/

theorem specFirstViolation_cons_eq_some (o : Option JwtInvalidError)
    (l : List (Option JwtInvalidError)) (e : JwtInvalidError) :
    specFirstViolation (o :: l) = some e ↔
      o = some e ∨ (o = none ∧ specFirstViolation l = some e) := by
  cases o <;> simp [specFirstViolation]

theorem specFirstViolation_cons_eq_none (o : Option JwtInvalidError)
    (l : List (Option JwtInvalidError)) :
    specFirstViolation (o :: l) = none ↔
      o = none ∧ specFirstViolation l = none := by
  cases o <;> simp [specFirstViolation]

/-- `validateAt` errors with reason `e` exactly when `e` is the first
violation of the ordered check list. -/
theorem validateAt_error_iff (v : JwtValidator) (t : RawJwt) (now : Int)
    (e : JwtInvalidError) :
    validateAt v t now = .error e ↔
      specFirstViolation (specOrderedChecks v t now) = some e := by
  rw [validateAt_eq_firstViolation]
  cases h : specFirstViolation (specOrderedChecks v t now) <;>
    simp [Option.elim]

/-- `validateAt` succeeds exactly when no rule of the ordered check list is
violated. -/
theorem validateAt_ok_iff (v : JwtValidator) (t : RawJwt) (now : Int) :
    validateAt v t now = .ok () ↔
      specFirstViolation (specOrderedChecks v t now) = none := by
  rw [validateAt_eq_firstViolation]
  cases h : specFirstViolation (specOrderedChecks v t now) <;>
    simp [Option.elim]

theorem specCheckMissingExpiration_eq_some (v : JwtValidator) (t : RawJwt)
    (e : JwtInvalidError) :
    specCheckMissingExpiration v t = some e ↔
      e = .missingExpiration ∧ ¬t.has_expiration ∧
        ¬v.allow_missing_expiration := by
  unfold specCheckMissingExpiration
  split_ifs <;> simp_all <;> tauto

theorem specCheckMissingExpiration_eq_none (v : JwtValidator) (t : RawJwt) :
    specCheckMissingExpiration v t = none ↔
      ¬(¬t.has_expiration ∧ ¬v.allow_missing_expiration) := by
  unfold specCheckMissingExpiration
  split_ifs <;> simp_all

theorem specCheckExpired_eq_some (v : JwtValidator) (t : RawJwt) (now : Int)
    (e : JwtInvalidError) :
    specCheckExpired v t now = some e ↔
      e = .expired (t.expiration.getD 0) ∧ t.has_expiration ∧
        t.expiration.getD 0 ≤ now - v.clock_skew := by
  unfold specCheckExpired
  split_ifs <;> simp_all <;> tauto

theorem specCheckExpired_eq_none (v : JwtValidator) (t : RawJwt) (now : Int) :
    specCheckExpired v t now = none ↔
      ¬(t.has_expiration ∧ t.expiration.getD 0 ≤ now - v.clock_skew) := by
  unfold specCheckExpired
  split_ifs <;> simp_all

theorem specCheckNotBefore_eq_some (v : JwtValidator) (t : RawJwt) (now : Int)
    (e : JwtInvalidError) :
    specCheckNotBefore v t now = some e ↔
      e = .notYetValid (t.not_before.getD 0) ∧ t.has_not_before ∧
        t.not_before.getD 0 > now + v.clock_skew := by
  unfold specCheckNotBefore
  split_ifs <;> simp_all <;> tauto

theorem specCheckNotBefore_eq_none (v : JwtValidator) (t : RawJwt) (now : Int) :
    specCheckNotBefore v t now = none ↔
      ¬(t.has_not_before ∧ t.not_before.getD 0 > now + v.clock_skew) := by
  unfold specCheckNotBefore
  split_ifs <;> simp_all

theorem specCheckIssuedInPast_eq_some (v : JwtValidator) (t : RawJwt)
    (now : Int) (e : JwtInvalidError) :
    specCheckIssuedInPast v t now = some e ↔
      v.expect_issued_in_the_past ∧
        ((e = .missingIssuedAt ∧ ¬t.has_issued_at) ∨
          (e = .issuedAtInFuture (t.issued_at.getD 0) ∧ t.has_issued_at ∧
            t.issued_at.getD 0 > now + v.clock_skew)) := by
  unfold specCheckIssuedInPast
  split_ifs <;> simp_all <;> tauto

theorem specCheckIssuedInPast_eq_none (v : JwtValidator) (t : RawJwt)
    (now : Int) :
    specCheckIssuedInPast v t now = none ↔
      ¬v.expect_issued_in_the_past ∨
        (t.has_issued_at ∧ ¬(t.issued_at.getD 0 > now + v.clock_skew)) := by
  unfold specCheckIssuedInPast
  split_ifs <;> simp_all

theorem specCheckTypeHeader_eq_some (v : JwtValidator) (t : RawJwt)
    (e : JwtInvalidError) :
    specCheckTypeHeader v t = some e ↔
      (v.has_expected_type_header ∧
        ((e = .missingTypeHeader (v._expected_type_header.getD "") ∧
            ¬t.has_type_header) ∨
          (e = .wrongTypeHeader (v._expected_type_header.getD "")
              (t.type_header.getD "") ∧ t.has_type_header ∧
            v._expected_type_header.getD "" ≠ t.type_header.getD ""))) ∨
      (¬v.has_expected_type_header ∧ e = .typeHeaderSetButValidatorNot ∧
        t.has_type_header ∧ ¬v.ignore_type_header) := by
  unfold specCheckTypeHeader
  split_ifs <;> simp_all <;> tauto

theorem specCheckTypeHeader_eq_none (v : JwtValidator) (t : RawJwt) :
    specCheckTypeHeader v t = none ↔
      (v.has_expected_type_header ∧ t.has_type_header ∧
        v._expected_type_header.getD "" = t.type_header.getD "") ∨
      (¬v.has_expected_type_header ∧
        ¬(t.has_type_header ∧ ¬v.ignore_type_header)) := by
  unfold specCheckTypeHeader
  split_ifs <;> simp_all

theorem specCheckIssuer_eq_some (v : JwtValidator) (t : RawJwt)
    (e : JwtInvalidError) :
    specCheckIssuer v t = some e ↔
      (v.has_expected_issuer ∧
        ((e = .missingIssuer (v._expected_issuer.getD "") ∧ ¬t.has_issuer) ∨
          (e = .wrongIssuer (v._expected_issuer.getD "") (t.issuer.getD "") ∧
            t.has_issuer ∧ v._expected_issuer.getD "" ≠ t.issuer.getD ""))) ∨
      (¬v.has_expected_issuer ∧ e = .issuerSetButValidatorNot ∧
        t.has_issuer ∧ ¬v.ignore_issuer) := by
  unfold specCheckIssuer
  split_ifs <;> simp_all <;> tauto

theorem specCheckIssuer_eq_none (v : JwtValidator) (t : RawJwt) :
    specCheckIssuer v t = none ↔
      (v.has_expected_issuer ∧ t.has_issuer ∧
        v._expected_issuer.getD "" = t.issuer.getD "") ∨
      (¬v.has_expected_issuer ∧ ¬(t.has_issuer ∧ ¬v.ignore_issuer)) := by
  unfold specCheckIssuer
  split_ifs <;> simp_all

theorem specCheckAudience_eq_some (v : JwtValidator) (t : RawJwt)
    (e : JwtInvalidError) :
    specCheckAudience v t = some e ↔
      (v.has_expected_audience ∧
        e = .missingAudience (v._expected_audience.getD "") ∧
        (¬t.has_audiences ∨
          v._expected_audience.getD "" ∉ t.audiences.getD [])) ∨
      (¬v.has_expected_audience ∧ e = .audienceSetButValidatorNot ∧
        t.has_audiences ∧ ¬v.ignore_audiences) := by
  unfold specCheckAudience
  split_ifs <;> aesop

theorem specCheckAudience_eq_none (v : JwtValidator) (t : RawJwt) :
    specCheckAudience v t = none ↔
      (v.has_expected_audience ∧ t.has_audiences ∧
        v._expected_audience.getD "" ∈ t.audiences.getD []) ∨
      (¬v.has_expected_audience ∧
        ¬(t.has_audiences ∧ ¬v.ignore_audiences)) := by
  unfold specCheckAudience
  split_ifs <;> aesop

attribute [simp] specFirstViolation specFirstViolation_cons_eq_some
  specFirstViolation_cons_eq_none specCheckMissingExpiration_eq_some
  specCheckMissingExpiration_eq_none specCheckExpired_eq_some
  specCheckExpired_eq_none specCheckNotBefore_eq_some
  specCheckNotBefore_eq_none specCheckIssuedInPast_eq_some
  specCheckIssuedInPast_eq_none specCheckTypeHeader_eq_some
  specCheckTypeHeader_eq_none specCheckIssuer_eq_some specCheckIssuer_eq_none
  specCheckAudience_eq_some specCheckAudience_eq_none

attribute [simp] RawJwt.has_expiration RawJwt.has_not_before
  RawJwt.has_issued_at RawJwt.has_type_header RawJwt.has_issuer
  RawJwt.has_audiences JwtValidator.has_expected_type_header
  JwtValidator.expected_type_header JwtValidator.has_expected_issuer
  JwtValidator.expected_issuer JwtValidator.has_expected_audience
  JwtValidator.expected_audience JwtValidator.ignore_type_header
  JwtValidator.ignore_issuer JwtValidator.ignore_audiences
  JwtValidator.allow_missing_expiration
  JwtValidator.expect_issued_in_the_past JwtValidator.clock_skew
  JwtValidator.has_fixed_now JwtValidator.fixed_now

/-- C1: the expiration step.  `validate` fails with the missing-expiration
reason exactly when the token has no expiration claim and the policy does
not allow that; and when an expiration claim `e` is present, it fails with
the expired reason exactly when `e ≤ now − clock_skew` (boundary equality is
already expired). -/
theorem expiration_checks (v : JwtValidator) (t : RawJwt) (ambient_now : Int) :
    (validate v t ambient_now = .error .missingExpiration ↔
      t.expiration = none ∧ v.allow_missing_expiration = false) ∧
    ∀ e : Int, t.expiration = some e →
      (validate v t ambient_now = .error (.expired e) ↔
        e ≤ effectiveNow v ambient_now - v.clock_skew) := by
  constructor
  · unfold validate
    rw [validateAt_error_iff]
    simp [specOrderedChecks]
  · intro e he
    unfold validate
    rw [validateAt_error_iff]
    simp [specOrderedChecks, he]

/-- Witness for C1, the boundary instance from the spec: default policy,
`now = 100`, `clock_skew = 0`; a token with `expiration = 100` fails as
expired, a token with `expiration = 101` passes the expiration check. -/
theorem expiration_checks_witness :
    validate ⟨none, none, none, false, false, false, false, false, 0, none⟩
        ⟨some 100, none, none, none, none, none⟩ 100 =
      .error (.expired 100) ∧
    validate ⟨none, none, none, false, false, false, false, false, 0, none⟩
        ⟨some 101, none, none, none, none, none⟩ 100 ≠
      .error (.expired 101) :=
  ⟨((expiration_checks ⟨none, none, none, false, false, false, false, false,
      0, none⟩ ⟨some 100, none, none, none, none, none⟩ 100).2 100 rfl).mpr
      (by decide),
   fun h => absurd (((expiration_checks ⟨none, none, none, false, false,
      false, false, false, 0, none⟩ ⟨some 101, none, none, none, none, none⟩
      100).2 101 rfl).mp h) (by decide)⟩

/-- C3: the not-before and issued-in-past steps.  A token without a
not-before claim never fails the not-before check; a present not-before
claim fails exactly when `not_before > now + clock_skew` (equality valid);
under `expect_issued_in_the_past`, a missing iat claim always fails (with
the missing-iat reason when the earlier steps pass), and a present iat
claim fails exactly when `issued_at > now + clock_skew` (equality valid). -/
theorem not_before_and_issued_in_past_checks (v : JwtValidator) (t : RawJwt)
    (ambient_now : Int) :
    (∀ x : Int, t.not_before = none →
      validate v t ambient_now ≠ .error (.notYetValid x)) ∧
    (∀ nbf : Int, t.not_before = some nbf →
      specCheckMissingExpiration v t = none →
      specCheckExpired v t (effectiveNow v ambient_now) = none →
      (validate v t ambient_now = .error (.notYetValid nbf) ↔
        nbf > effectiveNow v ambient_now + v.clock_skew)) ∧
    (v.expect_issued_in_the_past = true → t.issued_at = none →
      validate v t ambient_now ≠ .ok ()) ∧
    (v.expect_issued_in_the_past = true → t.issued_at = none →
      specCheckMissingExpiration v t = none →
      specCheckExpired v t (effectiveNow v ambient_now) = none →
      specCheckNotBefore v t (effectiveNow v ambient_now) = none →
      validate v t ambient_now = .error .missingIssuedAt) ∧
    (∀ i : Int, v.expect_issued_in_the_past = true → t.issued_at = some i →
      specCheckMissingExpiration v t = none →
      specCheckExpired v t (effectiveNow v ambient_now) = none →
      specCheckNotBefore v t (effectiveNow v ambient_now) = none →
      (validate v t ambient_now = .error (.issuedAtInFuture i) ↔
        i > effectiveNow v ambient_now + v.clock_skew)) := by
  refine ⟨?_, ?_, ?_, ?_, ?_⟩
  · intro x h hc
    unfold validate at hc
    rw [validateAt_error_iff] at hc
    simp [specOrderedChecks, h] at hc
  · intro nbf h e1 e2
    unfold validate
    rw [validateAt_error_iff]
    simp_all [specOrderedChecks]
  · intro hp hi hc
    unfold validate at hc
    rw [validateAt_ok_iff] at hc
    simp_all [specOrderedChecks]
  · intro hp hi e1 e2 e3
    unfold validate
    rw [validateAt_error_iff]
    simp_all [specOrderedChecks]
  · intro i hp hi e1 e2 e3
    unfold validate
    rw [validateAt_error_iff]
    simp_all [specOrderedChecks]

/-- Witness for C3: a policy with `expect_issued_in_the_past`,
`allow_missing_expiration`, zero skew, `now = 100`: not-before `101` is not
yet valid; iat `101` is in the future; a token without iat fails and is
reported as missing iat; not-before `50` with iat `60` does not trip the
not-before check. -/
theorem not_before_and_issued_in_past_checks_witness :
    (validate ⟨none, none, none, false, false, false, true, true, 0, none⟩
        ⟨none, some 101, some 100, none, none, none⟩ 100 =
      .error (.notYetValid 101)) ∧
    (validate ⟨none, none, none, false, false, false, true, true, 0, none⟩
        ⟨none, some 100, some 101, none, none, none⟩ 100 =
      .error (.issuedAtInFuture 101)) ∧
    (validate ⟨none, none, none, false, false, false, true, true, 0, none⟩
        ⟨none, none, none, none, none, none⟩ 100 ≠ .ok ()) ∧
    (validate ⟨none, none, none, false, false, false, true, true, 0, none⟩
        ⟨none, none, none, none, none, none⟩ 100 = .error .missingIssuedAt) ∧
    (validate ⟨none, none, none, false, false, false, true, true, 0, none⟩
        ⟨none, some 50, some 60, none, none, none⟩ 100 ≠
      .error (.notYetValid 50)) := by
  refine ⟨?_, ?_, ?_, ?_, ?_⟩
  · exact ((not_before_and_issued_in_past_checks
      ⟨none, none, none, false, false, false, true, true, 0, none⟩
      ⟨none, some 101, some 100, none, none, none⟩ 100).2.1 101 rfl
      (by decide) (by decide)).mpr (by decide)
  · exact ((not_before_and_issued_in_past_checks
      ⟨none, none, none, false, false, false, true, true, 0, none⟩
      ⟨none, some 100, some 101, none, none, none⟩ 100).2.2.2.2 101 rfl rfl
      (by decide) (by decide) (by decide)).mpr (by decide)
  · exact (not_before_and_issued_in_past_checks
      ⟨none, none, none, false, false, false, true, true, 0, none⟩
      ⟨none, none, none, none, none, none⟩ 100).2.2.1 rfl rfl
  · exact (not_before_and_issued_in_past_checks
      ⟨none, none, none, false, false, false, true, true, 0, none⟩
      ⟨none, none, none, none, none, none⟩ 100).2.2.2.1 rfl rfl (by decide)
      (by decide) (by decide)
  · intro h
    exact absurd (((not_before_and_issued_in_past_checks
      ⟨none, none, none, false, false, false, true, true, 0, none⟩
      ⟨none, some 50, some 60, none, none, none⟩ 100).2.1 50 rfl
      (by decide) (by decide)).mp h) (by decide)

/-- C9: with `fixed_now` set, `validate` does not depend on the ambient
clock reading: it is a deterministic pure function of the policy and the
token, so two calls yield the identical outcome. -/
theorem fixed_now_deterministic (v : JwtValidator) (t : RawJwt)
    (h : v.has_fixed_now = true) (ambient_now₁ ambient_now₂ : Int) :
    validate v t ambient_now₁ = validate v t ambient_now₂ := by
  simp only [JwtValidator.has_fixed_now] at h
  simp [validate, effectiveNow, h]

/-- Witness for C9: a policy with a fixed clock validates a token the same
way under two different ambient clock readings. -/
theorem fixed_now_deterministic_witness :
    validate ⟨none, none, none, false, false, false, true, false, 0,
        some ⟨50, true⟩⟩ ⟨none, none, none, none, none, none⟩ 0 =
      validate ⟨none, none, none, false, false, false, true, false, 0,
        some ⟨50, true⟩⟩ ⟨none, none, none, none, none, none⟩ 999 :=
  fixed_now_deterministic ⟨none, none, none, false, false, false, true,
    false, 0, some ⟨50, true⟩⟩ ⟨none, none, none, none, none, none⟩
    (by decide) 0 999

/-- C4: the audience step.  With an expected audience `a` and the earlier
steps passing, validation succeeds exactly when the token has an audience
claim containing `a` (membership, not equality), and otherwise fails with
the missing-audience reason.  With no expected audience and the earlier
steps passing, validation fails the audience check exactly when the token
has an audience claim and `ignore_audiences` is false. -/
theorem audience_check (v : JwtValidator) (t : RawJwt) (ambient_now : Int) :
    (∀ a : String, v._expected_audience = some a →
      specCheckMissingExpiration v t = none →
      specCheckExpired v t (effectiveNow v ambient_now) = none →
      specCheckNotBefore v t (effectiveNow v ambient_now) = none →
      specCheckIssuedInPast v t (effectiveNow v ambient_now) = none →
      specCheckTypeHeader v t = none →
      specCheckIssuer v t = none →
      ((validate v t ambient_now = .ok ()) ↔
        t.audiences.isSome = true ∧ a ∈ t.audiences.getD []) ∧
      (¬(t.audiences.isSome = true ∧ a ∈ t.audiences.getD []) →
        validate v t ambient_now = .error (.missingAudience a))) ∧
    (v._expected_audience = none →
      specCheckMissingExpiration v t = none →
      specCheckExpired v t (effectiveNow v ambient_now) = none →
      specCheckNotBefore v t (effectiveNow v ambient_now) = none →
      specCheckIssuedInPast v t (effectiveNow v ambient_now) = none →
      specCheckTypeHeader v t = none →
      specCheckIssuer v t = none →
      (validate v t ambient_now = .error .audienceSetButValidatorNot ↔
        t.audiences.isSome = true ∧ v.ignore_audiences = false)) := by
  constructor
  · intro a ha e1 e2 e3 e4 e5 e6
    constructor
    · unfold validate
      rw [validateAt_ok_iff]
      simp only [specOrderedChecks, specFirstViolation_cons_eq_none,
        e1, e2, e3, e4, e5, e6, true_and]
      simp [ha]
    · intro hm
      unfold validate
      rw [validateAt_error_iff]
      simp only [specOrderedChecks, specFirstViolation_cons_eq_some,
        e1, e2, e3, e4, e5, e6]
      cases haud : t.audiences with
      | none => simp [ha, haud]
      | some l =>
          simp [haud] at hm
          simp [ha, haud, hm]
  · intro ha e1 e2 e3 e4 e5 e6
    unfold validate
    rw [validateAt_error_iff]
    simp only [specOrderedChecks, specFirstViolation_cons_eq_some,
      e1, e2, e3, e4, e5, e6]
    simp [ha]

/-- Witness for C4, the membership instance from the spec: a policy
expecting audience `svc-a` accepts a token with audiences
`{svc-a, svc-b}` and rejects a token with audiences `{svc-b}` with the
missing-audience reason. -/
theorem audience_check_witness :
    (validate ⟨none, none, some "svc-a", false, false, false, true, false, 0,
        none⟩ ⟨none, none, none, none, none, some ["svc-a", "svc-b"]⟩ 100 =
      .ok ()) ∧
    (validate ⟨none, none, some "svc-a", false, false, false, true, false, 0,
        none⟩ ⟨none, none, none, none, none, some ["svc-b"]⟩ 100 =
      .error (.missingAudience "svc-a")) := by
  constructor
  · exact (((audience_check ⟨none, none, some "svc-a", false, false, false,
      true, false, 0, none⟩
      ⟨none, none, none, none, none, some ["svc-a", "svc-b"]⟩ 100).1 "svc-a"
      rfl (by decide) (by decide) (by decide) (by decide) (by decide)
      (by decide)).1).mpr (by decide)
  · exact (((audience_check ⟨none, none, some "svc-a", false, false, false,
      true, false, 0, none⟩
      ⟨none, none, none, none, none, some ["svc-b"]⟩ 100).1 "svc-a"
      rfl (by decide) (by decide) (by decide) (by decide) (by decide)
      (by decide)).2) (by decide)

/-- C5: the type-header and issuer steps.  With an expected value `s` and
the earlier steps passing: an absent claim fails with the missing reason, a
differing claim fails with the wrong-value reason, and the check passes
exactly when the claim equals `s` (exact string comparison).  With no
expected value and the earlier steps passing: the check fails exactly when
the claim is present and the corresponding ignore flag is false. -/
theorem type_header_and_issuer_checks (v : JwtValidator) (t : RawJwt)
    (ambient_now : Int) :
    (∀ s : String, v._expected_type_header = some s →
      specCheckMissingExpiration v t = none →
      specCheckExpired v t (effectiveNow v ambient_now) = none →
      specCheckNotBefore v t (effectiveNow v ambient_now) = none →
      specCheckIssuedInPast v t (effectiveNow v ambient_now) = none →
      (t.type_header = none →
        validate v t ambient_now = .error (.missingTypeHeader s)) ∧
      (∀ g : String, t.type_header = some g → g ≠ s →
        validate v t ambient_now = .error (.wrongTypeHeader s g)) ∧
      (specCheckTypeHeader v t = none ↔ t.type_header = some s)) ∧
    (v._expected_type_header = none →
      specCheckMissingExpiration v t = none →
      specCheckExpired v t (effectiveNow v ambient_now) = none →
      specCheckNotBefore v t (effectiveNow v ambient_now) = none →
      specCheckIssuedInPast v t (effectiveNow v ambient_now) = none →
      (validate v t ambient_now = .error .typeHeaderSetButValidatorNot ↔
        t.type_header.isSome = true ∧ v.ignore_type_header = false)) ∧
    (∀ s : String, v._expected_issuer = some s →
      specCheckMissingExpiration v t = none →
      specCheckExpired v t (effectiveNow v ambient_now) = none →
      specCheckNotBefore v t (effectiveNow v ambient_now) = none →
      specCheckIssuedInPast v t (effectiveNow v ambient_now) = none →
      specCheckTypeHeader v t = none →
      (t.issuer = none →
        validate v t ambient_now = .error (.missingIssuer s)) ∧
      (∀ g : String, t.issuer = some g → g ≠ s →
        validate v t ambient_now = .error (.wrongIssuer s g)) ∧
      (specCheckIssuer v t = none ↔ t.issuer = some s)) ∧
    (v._expected_issuer = none →
      specCheckMissingExpiration v t = none →
      specCheckExpired v t (effectiveNow v ambient_now) = none →
      specCheckNotBefore v t (effectiveNow v ambient_now) = none →
      specCheckIssuedInPast v t (effectiveNow v ambient_now) = none →
      specCheckTypeHeader v t = none →
      (validate v t ambient_now = .error .issuerSetButValidatorNot ↔
        t.issuer.isSome = true ∧ v.ignore_issuer = false)) := by
  refine ⟨?_, ?_, ?_, ?_⟩
  · intro s hs e1 e2 e3 e4
    refine ⟨?_, ?_, ?_⟩
    · intro hth
      unfold validate
      rw [validateAt_error_iff]
      simp_all [specOrderedChecks]
    · intro g hg hne
      unfold validate
      rw [validateAt_error_iff]
      simp_all [specOrderedChecks]
      tauto
    · cases hth : t.type_header <;> simp_all
      exact eq_comm
  · intro hs e1 e2 e3 e4
    unfold validate
    rw [validateAt_error_iff]
    simp_all [specOrderedChecks]
  · intro s hs e1 e2 e3 e4 e5
    refine ⟨?_, ?_, ?_⟩
    · intro hth
      unfold validate
      rw [validateAt_error_iff]
      simp_all [specOrderedChecks]
    · intro g hg hne
      unfold validate
      rw [validateAt_error_iff]
      simp_all [specOrderedChecks]
      tauto
    · cases hth : t.issuer <;> simp_all
      exact eq_comm
  · intro hs e1 e2 e3 e4 e5
    unfold validate
    rw [validateAt_error_iff]
    simp_all [specOrderedChecks]

/-- Witness for C5, the instance from the spec: under the default policy a
token carrying issuer `acme` fails with the has-issuer-set reason, and the
otherwise identical policy with `ignore_issuer` set accepts it; a policy
expecting issuer `acme` accepts it. -/
theorem type_header_and_issuer_checks_witness :
    (validate ⟨none, none, none, false, false, false, true, false, 0, none⟩
        ⟨none, none, none, none, some "acme", none⟩ 100 =
      .error .issuerSetButValidatorNot) ∧
    (validate ⟨none, none, none, false, true, false, true, false, 0, none⟩
        ⟨none, none, none, none, some "acme", none⟩ 100 ≠
      .error .issuerSetButValidatorNot) ∧
    (validate ⟨none, some "acme", none, false, false, false, true, false, 0,
        none⟩ ⟨none, none, none, none, some "bogus", none⟩ 100 =
      .error (.wrongIssuer "acme" "bogus")) ∧
    (validate ⟨none, some "acme", none, false, false, false, true, false, 0,
        none⟩ ⟨none, none, none, none, none, none⟩ 100 =
      .error (.missingIssuer "acme")) := by
  refine ⟨?_, ?_, ?_, ?_⟩
  · exact ((type_header_and_issuer_checks
      ⟨none, none, none, false, false, false, true, false, 0, none⟩
      ⟨none, none, none, none, some "acme", none⟩ 100).2.2.2 rfl (by decide)
      (by decide) (by decide) (by decide) (by decide)).mpr (by decide)
  · intro h
    exact absurd (((type_header_and_issuer_checks
      ⟨none, none, none, false, true, false, true, false, 0, none⟩
      ⟨none, none, none, none, some "acme", none⟩ 100).2.2.2 rfl (by decide)
      (by decide) (by decide) (by decide) (by decide)).mp h) (by decide)
  · exact ((type_header_and_issuer_checks
      ⟨none, some "acme", none, false, false, false, true, false, 0, none⟩
      ⟨none, none, none, none, some "bogus", none⟩ 100).2.2.1 "acme" rfl
      (by decide) (by decide) (by decide) (by decide) (by decide)).2.1 "bogus"
      rfl (by decide)
  · exact ((type_header_and_issuer_checks
      ⟨none, some "acme", none, false, false, false, true, false, 0, none⟩
      ⟨none, none, none, none, none, none⟩ 100).2.2.1 "acme" rfl
      (by decide) (by decide) (by decide) (by decide) (by decide)).1 rfl

/-- Counterexample to C6 as stated: the conflict checks use Python
truthiness, so an empty-string expected issuer together with
`ignore_issuer = true` is accepted and construction succeeds. -/
theorem empty_expected_issuer_with_ignore_constructs :
    JwtValidator.init none (some "") none false true false false false none
        none =
      .ok ⟨none, some "", none, false, true, false, false, false, 0, none⟩ :=
  rfl

/-- C6 (amended): for every X in {type header, issuer, audience},
constructing with a truthy (non-empty) `expected_X` and `ignore_X = true`
raises a conflict `ValueError` (a construction-time error, a type disjoint
from the validation-time `JwtInvalidError`). -/
theorem conflict_construction_fails
    (eth eis eaud : Option String) (ith iis iaud amx eip : Bool)
    (cs : Option Int) (fn : Option Datetime)
    (h : (pyStrOptTruthy eth = true ∧ ith = true) ∨
      (pyStrOptTruthy eis = true ∧ iis = true) ∨
      (pyStrOptTruthy eaud = true ∧ iaud = true)) :
    JwtValidator.init eth eis eaud ith iis iaud amx eip cs fn =
        .error .typeHeaderConflict ∨
    JwtValidator.init eth eis eaud ith iis iaud amx eip cs fn =
        .error .issuerConflict ∨
    JwtValidator.init eth eis eaud ith iis iaud amx eip cs fn =
        .error .audienceConflict := by
  rcases h with ⟨h1, h2⟩ | ⟨h1, h2⟩ | ⟨h1, h2⟩
  · left
    simp [JwtValidator.init, h1, h2]
  · by_cases hc : (pyStrOptTruthy eth && ith) = true
    · left
      simp [JwtValidator.init, hc]
    · right; left
      simp [JwtValidator.init, hc, h1, h2]
  · by_cases hc1 : (pyStrOptTruthy eth && ith) = true
    · left
      simp [JwtValidator.init, hc1]
    · by_cases hc2 : (pyStrOptTruthy eis && iis) = true
      · right; left
        simp [JwtValidator.init, hc1, hc2]
      · right; right
        simp [JwtValidator.init, hc1, hc2, h1, h2]

/-- Witness for the amended C6: a non-empty expected issuer together with
`ignore_issuer` is rejected with the issuer-conflict error. -/
theorem conflict_construction_fails_witness :
    JwtValidator.init none (some "iss") none false true false false false
        none none = .error .typeHeaderConflict ∨
    JwtValidator.init none (some "iss") none false true false false false
        none none = .error .issuerConflict ∨
    JwtValidator.init none (some "iss") none false true false false false
        none none = .error .audienceConflict :=
  conflict_construction_fails none (some "iss") none false true false false
    false none none (Or.inr (Or.inl ⟨by decide, rfl⟩))

/-- Counterexample to C7 as stated: a negative `clock_skew` is truthy and
below the 10-minute ceiling, so construction accepts it and the
`clock_skew()` accessor returns a negative duration. -/
theorem negative_clock_skew_accepted :
    JwtValidator.init none none none false false false false false
        (some (-60)) none =
      .ok ⟨none, none, none, false, false, false, false, false, -60, none⟩ ∧
    JwtValidator.clock_skew
        ⟨none, none, none, false, false, false, false, false, -60, none⟩ =
      -60 ∧
    (-60 : Int) < 0 :=
  ⟨rfl, rfl, by decide⟩

/-- C7 (amended): construction with `clock_skew` above the 10-minute
ceiling fails; construction with no `clock_skew` stores a zero duration;
and every successfully constructed policy has `clock_skew ≤ 10` minutes.
The claimed lower bound `0 ≤ clock_skew` does not hold: the ceiling check
is guarded by truthiness and has no negativity test. -/
theorem clock_skew_bounds
    (eth eis eaud : Option String) (ith iis iaud amx eip : Bool)
    (cs : Option Int) (fn : Option Datetime) :
    (∀ d : Int, cs = some d → d > _MAX_CLOCK_SKEW →
      ∀ r : JwtValidator,
        JwtValidator.init eth eis eaud ith iis iaud amx eip cs fn ≠ .ok r) ∧
    (cs = none →
      ∀ r : JwtValidator,
        JwtValidator.init eth eis eaud ith iis iaud amx eip cs fn = .ok r →
        r.clock_skew = 0) ∧
    (∀ r : JwtValidator,
      JwtValidator.init eth eis eaud ith iis iaud amx eip cs fn = .ok r →
      r.clock_skew ≤ _MAX_CLOCK_SKEW) := by
  refine ⟨?_, ?_, ?_⟩
  · intro d hcs hgt r hok
    subst hcs
    unfold JwtValidator.init at hok
    split_ifs at hok with h1 h2 h3 h4 h5 h6 <;>
      try simp_all [pyTimedeltaOptTruthy, _MAX_CLOCK_SKEW]
  · intro hcs r hok
    subst hcs
    unfold JwtValidator.init at hok
    split_ifs at hok with h1 h2 h3 h4 h5 h6 <;>
      try simp_all [pyTimedeltaOptTruthy]
    all_goals subst hok
    all_goals rfl
  · intro r hok
    unfold JwtValidator.init at hok
    split_ifs at hok with h1 h2 h3 h4 h5 h6 <;> simp at hok
    all_goals subst hok
    all_goals simp only [JwtValidator.clock_skew]
    all_goals try simp_all [_MAX_CLOCK_SKEW]

/-- Witness for the amended C7: skew 700 s is rejected, no skew stores
zero, and skew 600 s (exactly 10 minutes) is stored and is at the bound. -/
theorem clock_skew_bounds_witness :
    (JwtValidator.init none none none false false false false false
        (some 700) none ≠
      .ok ⟨none, none, none, false, false, false, false, false, 700, none⟩) ∧
    JwtValidator.clock_skew
        ⟨none, none, none, false, false, false, false, false, 0, none⟩ = 0 ∧
    JwtValidator.clock_skew
        ⟨none, none, none, false, false, false, false, false, 600, none⟩ ≤
      _MAX_CLOCK_SKEW :=
  ⟨(clock_skew_bounds none none none false false false false false
      (some 700) none).1 700 rfl (by decide) _,
   (clock_skew_bounds none none none false false false false false none
      none).2.1 rfl _ rfl,
   (clock_skew_bounds none none none false false false false false
      (some 600) none).2.2 _ rfl⟩

/-- C8: a `fixed_now` lacking tzinfo is rejected at construction (the
constructor never returns a policy), and every successfully constructed
policy with a `fixed_now` carries tzinfo. -/
theorem fixed_now_requires_tzinfo
    (eth eis eaud : Option String) (ith iis iaud amx eip : Bool)
    (cs : Option Int) (fn : Option Datetime) :
    (∀ dt : Datetime, fn = some dt → dt.tzinfo = false →
      ∀ r : JwtValidator,
        JwtValidator.init eth eis eaud ith iis iaud amx eip cs fn ≠ .ok r) ∧
    (∀ r : JwtValidator,
      JwtValidator.init eth eis eaud ith iis iaud amx eip cs fn = .ok r →
      ∀ dt : Datetime, r.fixed_now = some dt → dt.tzinfo = true) := by
  constructor
  · intro dt hfn htz r hok
    subst hfn
    unfold JwtValidator.init at hok
    split_ifs at hok with h1 h2 h3 h4 h5 h6 <;> simp_all
  · intro r hok dt hdt
    unfold JwtValidator.init at hok
    split_ifs at hok with h1 h2 h3 h4 h5 h6 <;> try simp_all
    all_goals subst hok
    all_goals simp_all
/-- Witness for C8: a naive `fixed_now` is rejected (and, with all other
arguments benign, with exactly the tzinfo error), while a tz-aware
`fixed_now` is stored with its tzinfo flag true. -/
theorem fixed_now_requires_tzinfo_witness :
    (JwtValidator.init none none none false false false false false none
        (some ⟨5, false⟩) ≠
      .ok ⟨none, none, none, false, false, false, false, false, 0,
        some ⟨5, false⟩⟩) ∧
    JwtValidator.init none none none false false false false false none
        (some ⟨5, false⟩) = .error .fixedNowWithoutTzinfo ∧
    Datetime.tzinfo ⟨5, true⟩ = true :=
  ⟨(fixed_now_requires_tzinfo none none none false false false false false
      none (some ⟨5, false⟩)).1 ⟨5, false⟩ rfl rfl _,
   rfl,
   (fixed_now_requires_tzinfo none none none false false false false false
      none (some ⟨5, true⟩)).2
     ⟨none, none, none, false, false, false, false, false, 0,
       some ⟨5, true⟩⟩ rfl ⟨5, true⟩ rfl⟩

/-- C10: an empty-string expected value is honored, not treated as absent.
`has_expected_issuer` is an is-not-None check, so a policy built with
`expected_issuer = ""` reports an expected issuer, and validation then
demands a token issuer equal to `""` exactly: an absent issuer fails with
the missing-issuer reason, a non-empty issuer fails with the wrong-issuer
reason, and only `issuer = ""` passes. -/
theorem empty_expected_issuer_honored (v : JwtValidator)
    (hv : JwtValidator.init none (some "") none false false false true false
      none none = .ok v) :
    v.has_expected_issuer = true ∧
    ∀ (t : RawJwt) (ambient_now : Int),
      t.expiration = none → t.not_before = none → t.type_header = none →
      t.audiences = none →
      ((validate v t ambient_now = .ok ()) ↔ t.issuer = some "") ∧
      (t.issuer = none →
        validate v t ambient_now = .error (.missingIssuer "")) ∧
      (∀ g : String, t.issuer = some g → g ≠ "" →
        validate v t ambient_now = .error (.wrongIssuer "" g)) := by
  injection hv with h
  subst h
  refine ⟨rfl, ?_⟩
  intro t ambient_now he hn hth ha
  refine ⟨?_, ?_, ?_⟩
  · unfold validate
    rw [validateAt_ok_iff]
    simp [specOrderedChecks, he, hn, hth, ha]
    cases hiss : t.issuer <;> simp [hiss, eq_comm]
  · intro hi
    unfold validate
    rw [validateAt_error_iff]
    simp [specOrderedChecks, he, hn, hth, ha, hi]
  · intro g hg hne
    unfold validate
    rw [validateAt_error_iff]
    simp [specOrderedChecks, he, hn, hth, ha, hg, Ne.symm hne]

/-- Witness for C10: the policy built with `expected_issuer = ""` reports an
expected issuer and accepts exactly the token whose issuer is `""`. -/
theorem empty_expected_issuer_honored_witness :
    JwtValidator.has_expected_issuer
        ⟨none, some "", none, false, false, false, true, false, 0, none⟩ =
      true ∧
    validate ⟨none, some "", none, false, false, false, true, false, 0, none⟩
        ⟨none, none, none, none, some "", none⟩ 0 = .ok () ∧
    validate ⟨none, some "", none, false, false, false, true, false, 0, none⟩
        ⟨none, none, none, none, none, none⟩ 0 =
      .error (.missingIssuer "") ∧
    validate ⟨none, some "", none, false, false, false, true, false, 0, none⟩
        ⟨none, none, none, none, some "acme", none⟩ 0 =
      .error (.wrongIssuer "" "acme") := by
  have H := empty_expected_issuer_honored
    ⟨none, some "", none, false, false, false, true, false, 0, none⟩ rfl
  refine ⟨H.1, ?_, ?_, ?_⟩
  · exact ((H.2 ⟨none, none, none, none, some "", none⟩ 0 rfl rfl rfl
      rfl).1).mpr rfl
  · exact (H.2 ⟨none, none, none, none, none, none⟩ 0 rfl rfl rfl rfl).2.1 rfl
  · exact (H.2 ⟨none, none, none, none, some "acme", none⟩ 0 rfl rfl rfl
      rfl).2.2 "acme" rfl (by decide)
